import Mathlib

/-!
Shallow embedding of the temporian operator-graph core sampled under src/:
the Combine and Where symbolic operators (temporian/core/operators), the
numpy Cast and Where backend implementations
(temporian/implementation/numpy/operators), and the calendar ISO-week
operator.  Machine integers are modelled as Nat/Int, numpy float limits as
their exact integer values, fallible constructors return Except.
-/

/-- Feature data types (`temporian.core.data.dtype.DType`): the closed
enumeration used by the sampled operators. -/
inductive DType
  | BOOLEAN
  | INT32
  | INT64
  | FLOAT32
  | FLOAT64
  | STRING
deriving DecidableEq, Inhabited

/-- Error taxonomy of the spec.  The Python code raises `ValueError` at each
of the first five sites; the constructor records which taxonomy class (spec
section 7) the raise site belongs to.  `typeError` is outside the spec's
taxonomy: it models Python's `TypeError` raised at call binding, before any
constructor body runs (a positional argument passed to a keyword-only
parameter list). -/
inductive TpError
  | argumentCountError
  | schemaMismatchError
  | samplingMismatchError
  | dtypeConstraintError
  | overflowError
  | typeError
deriving DecidableEq, Inhabited

/-- Ordered feature (name, dtype) list, index structure and unix-timestamp
flag of a dataset (`temporian.core.data.schema.Schema`). -/
structure Schema where
  features : List (String × DType)
  indexes : List (String × DType)
  is_unix_timestamp : Bool
deriving DecidableEq

instance : Inhabited Schema := ⟨⟨[], [], false⟩⟩

/-- Symbolic node (`EventSetNode`): a schema plus the identity of its
sampling.  Two nodes share their sampling iff their sampling ids are equal
(the spec's identity-based same-sampling contract). -/
structure Node where
  schema : Schema
  samplingId : Nat
deriving DecidableEq

instance : Inhabited Node := ⟨⟨default, 0⟩⟩

/-- Modelled from the spec: `Schema.check_compatible_features` is called by
`Combine.__init__` but its definition is not under src/.  Per spec section
4.1 it fails with a SchemaMismatch error unless both schemas have the same
feature names and dtypes, and when `check_order` is true the ordering must
also match. -/
def Schema.checkCompatibleFeatures (s1 s2 : Schema) (checkOrder : Bool) :
    Except TpError Unit :=
  if checkOrder then
    if s1.features = s2.features then .ok () else .error .schemaMismatchError
  else
    if (s1.features.all fun p => decide (p ∈ s2.features)) &&
        (s2.features.all fun p => decide (p ∈ s1.features)) then .ok ()
    else .error .schemaMismatchError

/-- Variadic-argument bound of the Combine operator
(`temporian/core/operators/combine.py`). -/
def MAX_NUM_ARGUMENTS : Nat := 30

/-- Sequential feature-compatibility check of the `Combine.__init__` loop:
every input's schema is checked against the first input's schema with
`check_order=False`, stopping at the first failure. -/
def checkAllFeatures (first : Schema) : List Node → Except TpError Unit
  | [] => .ok ()
  | inp :: rest =>
    match Schema.checkCompatibleFeatures first inp.schema false with
    | .error e => .error e
    | .ok _ => checkAllFeatures first rest

/-- `Combine.__init__`: fails outside [2, MAX_NUM_ARGUMENTS) inputs, checks
every input's features against the first input's, and outputs a node with the
first input's features and indexes whose unix flag is the conjunction of all
inputs' flags.  `fresh` stands for the identity of the new sampling created
by `create_node_new_features_new_sampling`. -/
def Combine.init (inputs : List Node) (fresh : Nat) : Except TpError Node :=
  if inputs.length < 2 then .error .argumentCountError
  else if MAX_NUM_ARGUMENTS ≤ inputs.length then .error .argumentCountError
  else
    match checkAllFeatures inputs.headI.schema inputs with
    | .error e => .error e
    | .ok _ =>
      .ok { schema := { features := inputs.headI.schema.features,
                        indexes := inputs.headI.schema.indexes,
                        is_unix_timestamp :=
                          inputs.all fun inp => inp.schema.is_unix_timestamp },
            samplingId := fresh }

/-- Public `combine` function: with exactly one argument it returns that
argument unchanged without constructing an operator.  With any other number
of arguments it evaluates `Combine(inputs)`, which passes the argument tuple
positionally to the keyword-only `Combine.__init__` (`**inputs`); Python
raises a `TypeError` at call binding before the constructor body runs, so
`Combine.init`'s argument-count checks are unreachable from this function.
`fresh` is kept for signature uniformity with `Combine.init` and is unused
on both reachable paths. -/
def combine (inputs : List Node) (fresh : Nat) : Except TpError Node :=
  match inputs with
  | [x] => .ok x
  | _ => .error .typeError

/-- Scalar constant argument of the Where operator (`on_true` / `on_false`
when they are not nodes). -/
inductive ScalarValue
  | bool (b : Bool)
  | int (i : Int)
  | float (q : Rat)
  | str (s : String)
deriving DecidableEq

/-- Modelled from the spec: `DType.infer_from_value` is not under src/; it
maps a python scalar constant to the dtype of its kind. -/
def DType.inferFromValue : ScalarValue → DType
  | .bool _ => .BOOLEAN
  | .int _ => .INT64
  | .float _ => .FLOAT64
  | .str _ => .STRING

/-- `Where._add_argument`: a node argument must share the input's sampling
(`check_same_sampling` is not under src/ and is modelled from the spec as
sampling-identity, giving a SamplingMismatch error) and carry exactly one
feature, whose dtype is returned; a scalar argument's dtype is inferred. -/
def Where.addArgument (argValue : Node ⊕ ScalarValue) (input : Node) :
    Except TpError DType :=
  match argValue with
  | .inl node =>
    if node.samplingId ≠ input.samplingId then .error .samplingMismatchError
    else
      match node.schema.features.map Prod.snd with
      | [d] => .ok d
      | _ => .error .dtypeConstraintError
  | .inr v => .ok (DType.inferFromValue v)

/-- `Where.__init__`: the input must have exactly one BOOLEAN feature, the
two branch dtypes must agree, and the output node has one feature (named
after the input's single feature) of the common dtype over the input's
sampling (`create_node_new_features_existing_sampling` is not under src/ and
is modelled from the spec: the output reuses the sampling node's sampling and
index structure). -/
def Where.init (input : Node) (onTrue onFalse : Node ⊕ ScalarValue) :
    Except TpError Node :=
  match input.schema.features with
  | [(featureName, DType.BOOLEAN)] =>
    match Where.addArgument onTrue input with
    | .error e => .error e
    | .ok trueDtype =>
      match Where.addArgument onFalse input with
      | .error e => .error e
      | .ok falseDtype =>
        if trueDtype ≠ falseDtype then .error .dtypeConstraintError
        else
          .ok { schema := { features := [(featureName, trueDtype)],
                            indexes := input.schema.indexes,
                            is_unix_timestamp := input.schema.is_unix_timestamp },
                samplingId := input.samplingId }
  | _ => .error .dtypeConstraintError

/-- Cell value held by a numpy feature array. -/
inductive FValue
  | num (q : Rat)
  | str (s : String)
  | bool (b : Bool)
deriving DecidableEq

/-- A named feature array (`NumpyFeature`): its dtype and its values. -/
structure NumpyFeature where
  name : String
  dtype : DType
  data : List FValue
deriving DecidableEq

/-- An index key: the tuple of index-column values of one sub-sequence. -/
abbrev IndexKey := List String

/-- Backend dataset of the cast implementation (`NumpyEvent`): per-index-key
feature lists over a sampling. -/
structure NumpyEvent where
  samplingId : Nat
  data : List (IndexKey × List NumpyFeature)
deriving DecidableEq

/-- Modelled from the spec: the `NumpyEvent.dtypes` property is not under
src/; per the data model every index key holds features of the same schema,
so the (name, dtype) pairs are read off the first index entry. -/
def eventDtypes (e : NumpyEvent) : List (String × DType) :=
  match e.data with
  | [] => []
  | (_, fs) :: _ => fs.map fun f => (f.name, f.dtype)

/-- Exact representable maxima of `CastNumpyImplementation._dtype_limits`:
`np.iinfo(np.int32).max`, `np.iinfo(np.int64).max`, `np.finfo(np.float32).max`
and `np.finfo(np.float64).max` (the two float maxima are the exact integers
(2 - 2^-23) * 2^127 and (2 - 2^-52) * 2^1023).  BOOLEAN and STRING have no
entry in the source dictionary; their value here is junk that is guarded by
`noCheckDtype` exactly as in the source. -/
def dtypeMax : DType → Int
  | .INT32 => 2147483647
  | .INT64 => 9223372036854775807
  | .FLOAT32 => (2 ^ 24 - 1) * 2 ^ 104
  | .FLOAT64 => (2 ^ 53 - 1) * 2 ^ 971
  | _ => 0

/-- Exact representable minima of `CastNumpyImplementation._dtype_limits`
(`np.iinfo(...).min` and `np.finfo(...).min = -max`). -/
def dtypeMin : DType → Int
  | .INT32 => -2147483648
  | .INT64 => -9223372036854775808
  | .FLOAT32 => -((2 ^ 24 - 1) * 2 ^ 104)
  | .FLOAT64 => -((2 ^ 53 - 1) * 2 ^ 971)
  | _ => 0

/-- Membership in `CastNumpyImplementation._nocheck_dtypes`. -/
def noCheckDtype : DType → Bool
  | .BOOLEAN => true
  | .STRING => true
  | _ => false

/-- `CastNumpyImplementation._can_overflow`: BOOLEAN and STRING are exempt,
otherwise the cast can overflow when the origin's representable max exceeds
the destination's. -/
def canOverflow (originDtype dstDtype : DType) : Bool :=
  if noCheckDtype originDtype || noCheckDtype dstDtype then false
  else decide (dtypeMax dstDtype < dtypeMax originDtype)

/-- One numpy comparison of `_check_overflow`: a numeric cell is out of range
when it is below the destination's min or above its max; the comparison mask
is false on non-numeric cells. -/
def outOfRange (v : FValue) (dstDtype : DType) : Bool :=
  match v with
  | .num q => decide (q < (dtypeMin dstDtype : Rat)) ||
      decide ((dtypeMax dstDtype : Rat) < q)
  | _ => false

/-- `CastNumpyImplementation._check_overflow`: raises the overflow error when
the cast can overflow and some value falls outside the destination's
representable range. -/
def checkOverflowRaise (data : List FValue) (originDtype dstDtype : DType) :
    Except TpError Unit :=
  if canOverflow originDtype dstDtype &&
      data.any (fun v => outOfRange v dstDtype) then .error .overflowError
  else .ok ()

/-- Per-feature body of the `CastNumpyImplementation.__call__` loop: a feature
already at its destination dtype is reused as is; otherwise the overflow
check runs when enabled and a new feature is built with `astype` applied to
every value (`astype` abstracts numpy's value conversion, which no sampled
claim depends on). -/
def castFeatureResult (astype : DType → FValue → FValue) (check : Bool)
    (target : String → DType) (f : NumpyFeature) : Except TpError NumpyFeature :=
  if f.dtype = target f.name then .ok f
  else
    match (if check then checkOverflowRaise f.data f.dtype (target f.name)
           else .ok ()) with
    | .error e => .error e
    | .ok _ =>
      .ok { name := f.name, dtype := target f.name,
            data := f.data.map (astype (target f.name)) }

/-- Inner loop of `CastNumpyImplementation.__call__` over one index key's
features, stopping at the first error. -/
def castFeatures (astype : DType → FValue → FValue) (check : Bool)
    (target : String → DType) : List NumpyFeature → Except TpError (List NumpyFeature)
  | [] => .ok []
  | f :: rest =>
    match castFeatureResult astype check target f with
    | .error e => .error e
    | .ok f2 =>
      match castFeatures astype check target rest with
      | .error e => .error e
      | .ok rest2 => .ok (f2 :: rest2)

/-- Outer loop of `CastNumpyImplementation.__call__` over index keys. -/
def castData (astype : DType → FValue → FValue) (check : Bool)
    (target : String → DType) :
    List (IndexKey × List NumpyFeature) →
      Except TpError (List (IndexKey × List NumpyFeature))
  | [] => .ok []
  | (k, fs) :: rest =>
    match castFeatures astype check target fs with
    | .error e => .error e
    | .ok fs2 =>
      match castData astype check target rest with
      | .error e => .error e
      | .ok rest2 => .ok ((k, fs2) :: rest2)

/-- `CastNumpyImplementation.__call__`: if no feature changes dtype the input
event object is returned unchanged; otherwise a new event over the same
sampling is built feature by feature. -/
def castCall (astype : DType → FValue → FValue) (target : String → DType)
    (check : Bool) (event : NumpyEvent) : Except TpError NumpyEvent :=
  if (eventDtypes event).all (fun nd => decide (nd.2 = target nd.1)) then
    .ok event
  else
    match castData astype check target event.data with
    | .error e => .error e
    | .ok data2 => .ok { samplingId := event.samplingId, data := data2 }

/-- Per-index-key data block of the where implementation's container
(`IndexData`): feature arrays and a timestamp array. -/
structure IndexData where
  features : List (List FValue)
  timestamps : List Rat
deriving DecidableEq

/-- Backend dataset of the where implementation (`EventSet`): a schema and
per-index-key data blocks. -/
structure EventSet where
  schema : Schema
  data : List (IndexKey × IndexData)
deriving DecidableEq

/-- `WhereNumpyImplementation.__call__`: for every index key of the input it
emits an IndexData with an empty feature list and the fixed timestamp array
`np.array([1])`.  The operator's on_true/on_false attributes are carried as
parameters to record that the sampled implementation never reads them. -/
def whereNumpyCall (outputSchema : Schema) (onTrue onFalse : Option ScalarValue)
    (input : EventSet) : EventSet :=
  { schema := outputSchema,
    data := input.data.map fun kv => (kv.1, { features := [], timestamps := [1] }) }

/-- Leap-year predicate of CPython's datetime module (`_is_leap`), the
library semantics behind `datetime.isocalendar`. -/
def isLeap (y : Nat) : Bool := (y % 4 == 0 && y % 100 != 0) || y % 400 == 0

/-- Cumulative day counts before each month in a non-leap year (CPython's
`_DAYS_BEFORE_MONTH`). -/
def daysBeforeMonthBase : Nat → Nat
  | 1 => 0
  | 2 => 31
  | 3 => 59
  | 4 => 90
  | 5 => 120
  | 6 => 151
  | 7 => 181
  | 8 => 212
  | 9 => 243
  | 10 => 273
  | 11 => 304
  | 12 => 334
  | _ => 0

/-- CPython's `_days_before_month`. -/
def daysBeforeMonth (y m : Nat) : Nat :=
  daysBeforeMonthBase m + (if 2 < m ∧ isLeap y = true then 1 else 0)

/-- Month lengths of a non-leap year (CPython's `_DAYS_IN_MONTH`). -/
def daysInMonthBase : Nat → Nat
  | 2 => 28
  | 4 => 30
  | 6 => 30
  | 9 => 30
  | 11 => 30
  | _ => 31

/-- CPython's `_days_in_month`. -/
def daysInMonth (y m : Nat) : Nat :=
  if m = 2 ∧ isLeap y = true then 29 else daysInMonthBase m

/-- CPython's `_days_before_year` for years ≥ 1 (datetime's MINYEAR; for
valid dates the year-0 corner of the iso computation is never reached, which
`isoWeekInRange` proves). -/
def daysBeforeYear (y : Nat) : Nat :=
  (y - 1) * 365 + (y - 1) / 4 - (y - 1) / 100 + (y - 1) / 400

/-- CPython's `_ymd2ord`: proleptic Gregorian ordinal of a date. -/
def ymd2ord (y m d : Nat) : Nat :=
  daysBeforeYear y + daysBeforeMonth y m + d

/-- Validity of a `datetime.date` (CPython's `_check_date_fields`). -/
def validDate (y m d : Nat) : Prop :=
  1 ≤ y ∧ y ≤ 9999 ∧ 1 ≤ m ∧ m ≤ 12 ∧ 1 ≤ d ∧ d ≤ daysInMonth y m

instance (y m d : Nat) : Decidable (validDate y m d) := by
  unfold validDate; infer_instance

/-- CPython's `_isoweek1monday`: ordinal of the Monday starting ISO week 1 of
year `y` (Python's floor division and modulo by the positive constant 7
coincide with Int's `/` and `%`, which are Euclidean here). -/
def isoweek1monday (y : Nat) : Int :=
  if 3 < ((ymd2ord y 1 1 : Int) + 6) % 7 then
    (ymd2ord y 1 1 : Int) - ((ymd2ord y 1 1 : Int) + 6) % 7 + 7
  else
    (ymd2ord y 1 1 : Int) - ((ymd2ord y 1 1 : Int) + 6) % 7

/-- The week component of CPython's `date.isocalendar`, the value returned by
`CalendarISOWeekNumpyImplementation._get_value_from_datetime`
(`dt.isocalendar()[1]`); time-of-day fields of the datetime do not enter the
computation. -/
def isocalendarWeek (y m d : Nat) : Int :=
  if ((ymd2ord y m d : Int) - isoweek1monday y) / 7 < 0 then
    ((ymd2ord y m d : Int) - isoweek1monday (y - 1)) / 7 + 1
  else if 52 ≤ ((ymd2ord y m d : Int) - isoweek1monday y) / 7 ∧
      isoweek1monday (y + 1) ≤ (ymd2ord y m d : Int) then 1
  else ((ymd2ord y m d : Int) - isoweek1monday y) / 7 + 1

/-- Modelled from the spec: `BaseCalendarOperator` is not under src/;
following the documented contract of `calendar_iso_week` ("a single feature
... with the same sampling as event") its output node carries one INT32
feature named by the operator's `output_feature_name` over the input's
sampling. -/
def baseCalendarOutputNode (featureName : String) (sampling : Node) : Node :=
  { schema := { features := [(featureName, DType.INT32)],
                indexes := sampling.schema.indexes,
                is_unix_timestamp := sampling.schema.is_unix_timestamp },
    samplingId := sampling.samplingId }

/-- Public `calendar_iso_week` function: the output node of
`CalendarISOWeekOperator`, whose `output_feature_name` is
"calendar_iso_week". -/
def calendar_iso_week (sampling : Node) : Node :=
  baseCalendarOutputNode "calendar_iso_week" sampling

/-- Resulting dtype of a Where branch argument, in the claim's sense: the
single feature's dtype when the argument is a node (none when the node does
not have exactly one feature), the inferred dtype when it is a scalar. -/
def resultingDtype : Node ⊕ ScalarValue → Option DType
  | .inl node =>
    match node.schema.features.map Prod.snd with
    | [d] => some d
    | _ => none
  | .inr v => some (DType.inferFromValue v)

/-- Well-formedness of a Where branch argument apart from its dtype: a node
branch shares the input's sampling and carries exactly one feature; a scalar
branch is always well-formed. -/
def argWellFormed (argValue : Node ⊕ ScalarValue) (input : Node) : Prop :=
  match argValue with
  | .inl node => node.samplingId = input.samplingId ∧
      (node.schema.features.map Prod.snd).length = 1
  | .inr _ => True

/-- Sample node with two int64 features over a string index, unix timestamps. -/
def sampleNodeA : Node :=
  { schema := { features := [("A", DType.INT64), ("B", DType.INT64)],
                indexes := [("idx", DType.STRING)], is_unix_timestamp := true },
    samplingId := 2 }

/-- Sample node with sampleNodeA's feature set in the other order, non-unix. -/
def sampleNodeB : Node :=
  { schema := { features := [("B", DType.INT64), ("A", DType.INT64)],
                indexes := [("idx", DType.STRING)], is_unix_timestamp := false },
    samplingId := 3 }

/-- Sample node with a feature set different from sampleNodeA's. -/
def sampleNodeC : Node :=
  { schema := { features := [("C", DType.INT64)], indexes := [],
                is_unix_timestamp := true },
    samplingId := 4 }

/-- The output node produced by combining sampleNodeA and sampleNodeB. -/
def sampleCombineOut : Node :=
  { schema := { features := [("A", DType.INT64), ("B", DType.INT64)],
                indexes := [("idx", DType.STRING)], is_unix_timestamp := false },
    samplingId := 0 }

/-- Sample node with two boolean features (invalid Where input). -/
def twoBoolNode : Node :=
  { schema := { features := [("a", DType.BOOLEAN), ("b", DType.BOOLEAN)],
                indexes := [], is_unix_timestamp := false },
    samplingId := 1 }

/-- Sample node with exactly one boolean feature (valid Where input). -/
def boolCondNode : Node :=
  { schema := { features := [("cond", DType.BOOLEAN)], indexes := [],
                is_unix_timestamp := false },
    samplingId := 7 }

/-- Sample int64 feature holding the values [0, 2^40]. -/
def int64Feature40 : NumpyFeature :=
  { name := "x", dtype := DType.INT64,
    data := [FValue.num 0, FValue.num (2 ^ 40)] }

/-- Sample event holding int64Feature40 under one index key. -/
def int64Event40 : NumpyEvent :=
  { samplingId := 0, data := [(["k"], [int64Feature40])] }

/-- A concrete astype function (identity on values). -/
def identityAstype : DType → FValue → FValue := fun _ v => v

/-- A concrete target dtype mapping sending every feature to INT64. -/
def int64TargetMap : String → DType := fun _ => DType.INT64

/-- Sample where-implementation input with one index key, two events. -/
def sampleEventSet : EventSet :=
  { schema := ⟨[("cond", DType.BOOLEAN)], [], false⟩,
    data := [(["k"], { features := [[FValue.bool true, FValue.bool false]],
                       timestamps := [0, 5] })] }

/-- Success test on an Except value. -/
def exceptIsOk {e a : Type} : Except e a → Bool
  | .ok _ => true
  | .error _ => false


theorem checkCompatibleFeatures_false_ok_iff (s1 s2 : Schema) :
    Schema.checkCompatibleFeatures s1 s2 false = Except.ok () ↔
      ∀ p, p ∈ s1.features ↔ p ∈ s2.features := by
  unfold Schema.checkCompatibleFeatures
  simp only [Bool.false_eq_true, if_false, Bool.and_eq_true, List.all_eq_true,
    decide_eq_true_eq]
  split
  · rename_i hcond
    constructor
    · intro _ p
      exact ⟨fun hp => hcond.1 p hp, fun hp => hcond.2 p hp⟩
    · intro _; rfl
  · rename_i hcond
    constructor
    · intro hbad; exact absurd hbad (by simp)
    · intro hall
      exact absurd ⟨fun p hp => (hall p).mp hp, fun p hp => (hall p).mpr hp⟩ hcond

theorem checkCompatibleFeatures_ok_or_mismatch (s1 s2 : Schema) (co : Bool) :
    Schema.checkCompatibleFeatures s1 s2 co = Except.ok () ∨
      Schema.checkCompatibleFeatures s1 s2 co =
        Except.error TpError.schemaMismatchError := by
  unfold Schema.checkCompatibleFeatures
  split <;> split <;> simp

theorem checkAllFeatures_ok_iff (first : Schema) (l : List Node) :
    checkAllFeatures first l = Except.ok () ↔
      ∀ inp ∈ l,
        Schema.checkCompatibleFeatures first inp.schema false = Except.ok () := by
  induction l with
  | nil => simp [checkAllFeatures]
  | cons a t ih =>
    unfold checkAllFeatures
    cases h : Schema.checkCompatibleFeatures first a.schema false with
    | error e =>
      constructor
      · intro hbad; exact Except.noConfusion hbad
      · intro hall
        have ha := hall a (List.mem_cons_self a t)
        rw [h] at ha
        exact Except.noConfusion ha
    | ok u =>
      cases u
      simp only [List.mem_cons]
      constructor
      · intro hrest p hp
        rcases hp with rfl | hp
        · exact h
        · exact (ih.mp hrest) p hp
      · intro hall
        exact ih.mpr fun p hp => hall p (Or.inr hp)

theorem checkAllFeatures_ok_or_mismatch (first : Schema) (l : List Node) :
    checkAllFeatures first l = Except.ok () ∨
      checkAllFeatures first l = Except.error TpError.schemaMismatchError := by
  induction l with
  | nil => left; rfl
  | cons a t ih =>
    unfold checkAllFeatures
    rcases checkCompatibleFeatures_ok_or_mismatch first a.schema false with h | h
    · rw [h]; exact ih
    · rw [h]; right; rfl

theorem Combine.init_ok_inv (inputs : List Node) (fresh : Nat) (node : Node)
    (h : Combine.init inputs fresh = Except.ok node) :
    2 ≤ inputs.length ∧ inputs.length < 30 ∧
    checkAllFeatures inputs.headI.schema inputs = Except.ok () ∧
    node = { schema := { features := inputs.headI.schema.features,
                         indexes := inputs.headI.schema.indexes,
                         is_unix_timestamp :=
                           inputs.all fun inp => inp.schema.is_unix_timestamp },
             samplingId := fresh } := by
  unfold Combine.init MAX_NUM_ARGUMENTS at h
  by_cases h1 : inputs.length < 2
  · rw [if_pos h1] at h; exact Except.noConfusion h
  rw [if_neg h1] at h
  by_cases h2 : 30 ≤ inputs.length
  · rw [if_pos h2] at h; exact Except.noConfusion h
  rw [if_neg h2] at h
  cases hc : checkAllFeatures inputs.headI.schema inputs with
  | error e => rw [hc] at h; exact Except.noConfusion h
  | ok u =>
    cases u
    rw [hc] at h
    exact ⟨by omega, by omega, rfl, (Except.ok.inj h).symm⟩

/-- C4: calling the public combine function with exactly one argument returns
that argument itself, unchanged, without constructing any operator. -/
theorem combine_single_identity (x : Node) (fresh : Nat) :
    combine [x] fresh = Except.ok x := rfl

/-- C4 witness: combining the single sample node returns it unchanged. -/
theorem combine_single_identity_witness :
    combine [sampleNodeB] 3 = Except.ok sampleNodeB :=
  combine_single_identity sampleNodeB 3

/-- C3 fails as stated, on both counts: calling combine with a single
argument returns the argument and raises no ArgumentCountError, and calling
it with 30 arguments fails with the call-binding TypeError of the positional
`Combine(inputs)` call, not with an ArgumentCountError. -/
theorem combine_argument_count_counterexample :
    combine [sampleNodeA] 0 = Except.ok sampleNodeA ∧
    combine [sampleNodeA] 0 ≠ Except.error TpError.argumentCountError ∧
    combine (List.replicate 30 sampleNodeA) 0 = Except.error TpError.typeError ∧
    combine (List.replicate 30 sampleNodeA) 0 ≠
      Except.error TpError.argumentCountError := by
  refine ⟨rfl, ?_, rfl, ?_⟩
  · intro hbad; exact Except.noConfusion hbad
  · intro hbad; exact TpError.noConfusion (Except.error.inj hbad)

/-- C3 (amended): calling the public combine function with 1 argument
returns that argument unchanged rather than failing; calling it with 30 or
more arguments fails, but with the TypeError of the positional call to the
keyword-only Combine constructor rather than with an ArgumentCountError; and
constructing the Combine operator (with keyword inputs) with any number of
inputs N with 2 <= N < 30 does not raise an argument-count error. -/
theorem combine_argument_count (inputs : List Node) (fresh : Nat) :
    (∀ x, combine [x] fresh = Except.ok x) ∧
    (30 ≤ inputs.length →
      combine inputs fresh = Except.error TpError.typeError) ∧
    (2 ≤ inputs.length → inputs.length < 30 →
      Combine.init inputs fresh ≠ Except.error TpError.argumentCountError) := by
  refine ⟨fun x => rfl, ?_, ?_⟩
  · intro h30
    rcases inputs with _ | ⟨a, _ | ⟨b, t⟩⟩
    · simp at h30
    · simp at h30
    · rfl
  · intro h2 h3
    unfold Combine.init MAX_NUM_ARGUMENTS
    rw [if_neg (by omega), if_neg (by omega)]
    rcases checkAllFeatures_ok_or_mismatch inputs.headI.schema inputs with hc | hc
    · rw [hc]
      intro hbad; exact Except.noConfusion hbad
    · rw [hc]
      intro hbad
      have := Except.error.inj hbad
      exact TpError.noConfusion this

/-- C3 witness: the amended behavior at concrete inputs. -/
theorem combine_argument_count_witness :
    combine [sampleNodeA] 0 = Except.ok sampleNodeA ∧
    combine (List.replicate 30 sampleNodeA) 0 =
      Except.error TpError.typeError ∧
    Combine.init [sampleNodeA, sampleNodeB] 0 ≠
      Except.error TpError.argumentCountError :=
  ⟨(combine_argument_count [] 0).1 sampleNodeA,
   (combine_argument_count (List.replicate 30 sampleNodeA) 0).2.1 (by simp),
   (combine_argument_count [sampleNodeA, sampleNodeB] 0).2.2 (by simp) (by simp)⟩

/-- C6: for every successfully constructed Combine operator the output's
is_unix_timestamp flag is true iff every input's flag is true (hence false as
soon as one input's flag is false). -/
theorem combine_unix_flag (inputs : List Node) (fresh : Nat) (node : Node)
    (h : Combine.init inputs fresh = Except.ok node) :
    (node.schema.is_unix_timestamp = true ↔
      ∀ inp ∈ inputs, inp.schema.is_unix_timestamp = true) := by
  obtain ⟨-, -, -, rfl⟩ := Combine.init_ok_inv inputs fresh node h
  simp [List.all_eq_true]

/-- C6 witness: combining a unix-timestamp node with a non-unix node yields a
non-unix output. -/
theorem combine_unix_flag_witness :
    (sampleCombineOut.schema.is_unix_timestamp = true ↔
      ∀ inp ∈ [sampleNodeA, sampleNodeB],
        inp.schema.is_unix_timestamp = true) :=
  combine_unix_flag [sampleNodeA, sampleNodeB] 0 sampleCombineOut rfl

/-- C7: Where construction raises DTypeConstraintError unless the input has
exactly one feature and that feature's dtype is BOOLEAN. -/
theorem where_input_constraint (input : Node) (onTrue onFalse : Node ⊕ ScalarValue)
    (h : input.schema.features.map Prod.snd ≠ [DType.BOOLEAN]) :
    Where.init input onTrue onFalse = Except.error TpError.dtypeConstraintError := by
  unfold Where.init
  cases hf : input.schema.features with
  | nil => rfl
  | cons p rest =>
    obtain ⟨nm, dt⟩ := p
    cases rest with
    | nil =>
      cases dt with
      | BOOLEAN =>
        rw [hf] at h
        simp at h
      | INT32 => rfl
      | INT64 => rfl
      | FLOAT32 => rfl
      | FLOAT64 => rfl
      | STRING => rfl
    | cons q rest2 => cases dt <;> rfl

/-- C7 witness: an input with two boolean features fails with the dtype
constraint error. -/
theorem where_input_constraint_witness :
    twoBoolNode.schema.features.map Prod.snd ≠ [DType.BOOLEAN] ∧
    Where.init twoBoolNode (Sum.inr (ScalarValue.int 1))
        (Sum.inr (ScalarValue.int 2)) =
      Except.error TpError.dtypeConstraintError :=
  ⟨by decide, where_input_constraint twoBoolNode _ _ (by decide)⟩

/-- C5: constructing Combine over N >= 2 inputs (within the argument bound)
fails with SchemaMismatchError unless every input's feature (name, dtype) set
equals the first input's (order not required); when it succeeds the output's
feature list is exactly the first input's in its order and the output's
indexes are the first input's. -/
theorem combine_schema_check (inputs : List Node) (fresh : Nat)
    (h2 : 2 ≤ inputs.length) (h30 : inputs.length < 30) :
    ((∃ node, Combine.init inputs fresh = Except.ok node) ↔
      ∀ inp ∈ inputs, ∀ p,
        (p ∈ inputs.headI.schema.features ↔ p ∈ inp.schema.features)) ∧
    (∀ node, Combine.init inputs fresh = Except.ok node →
      node.schema.features = inputs.headI.schema.features ∧
      node.schema.indexes = inputs.headI.schema.indexes) ∧
    ((∃ inp ∈ inputs, ¬ ∀ p,
        (p ∈ inputs.headI.schema.features ↔ p ∈ inp.schema.features)) →
      Combine.init inputs fresh = Except.error TpError.schemaMismatchError) := by
  have hbridge : checkAllFeatures inputs.headI.schema inputs = Except.ok () ↔
      ∀ inp ∈ inputs, ∀ p,
        (p ∈ inputs.headI.schema.features ↔ p ∈ inp.schema.features) := by
    rw [checkAllFeatures_ok_iff]
    constructor
    · intro hall inp hm
      exact (checkCompatibleFeatures_false_ok_iff _ _).mp (hall inp hm)
    · intro hall inp hm
      exact (checkCompatibleFeatures_false_ok_iff _ _).mpr (hall inp hm)
  rcases checkAllFeatures_ok_or_mismatch inputs.headI.schema inputs with hc | hc
  · have hred : Combine.init inputs fresh =
        Except.ok { schema := { features := inputs.headI.schema.features,
                                indexes := inputs.headI.schema.indexes,
                                is_unix_timestamp :=
                                  inputs.all fun inp => inp.schema.is_unix_timestamp },
                    samplingId := fresh } := by
      unfold Combine.init MAX_NUM_ARGUMENTS
      rw [if_neg (by omega), if_neg (by omega), hc]
    refine ⟨?_, ?_, ?_⟩
    · constructor
      · intro _; exact hbridge.mp hc
      · intro _; exact ⟨_, hred⟩
    · intro node hnode
      have hrec := Except.ok.inj (hred.symm.trans hnode)
      rw [← hrec]
      exact ⟨rfl, rfl⟩
    · rintro ⟨inp, hm, hnot⟩
      exact absurd (hbridge.mp hc inp hm) hnot
  · have hred : Combine.init inputs fresh =
        Except.error TpError.schemaMismatchError := by
      unfold Combine.init MAX_NUM_ARGUMENTS
      rw [if_neg (by omega), if_neg (by omega), hc]
    refine ⟨?_, ?_, ?_⟩
    · constructor
      · rintro ⟨node, hnode⟩
        exact Except.noConfusion (hred.symm.trans hnode)
      · intro hall
        exact Except.noConfusion ((hbridge.mpr hall).symm.trans hc)
    · intro node hnode
      exact Except.noConfusion (hred.symm.trans hnode)
    · intro _; exact hred

/-- C5 witness: combining nodes with different feature sets fails with the
schema mismatch error. -/
theorem combine_schema_check_witness :
    Combine.init [sampleNodeA, sampleNodeC] 0 =
      Except.error TpError.schemaMismatchError :=
  (combine_schema_check [sampleNodeA, sampleNodeC] 0 (by simp) (by simp)).2.2
    ⟨sampleNodeC, by simp,
     fun hall => absurd ((hall ("A", DType.INT64)).mp (by decide)) (by decide)⟩

theorem addArgument_ok_of_wellFormed (argValue : Node ⊕ ScalarValue) (input : Node)
    (h : argWellFormed argValue input) :
    ∃ d, Where.addArgument argValue input = Except.ok d ∧
      resultingDtype argValue = some d := by
  cases argValue with
  | inl node =>
    have h2 : node.samplingId = input.samplingId ∧
        (node.schema.features.map Prod.snd).length = 1 := h
    obtain ⟨hs, hl⟩ := h2
    simp only [Where.addArgument, resultingDtype]
    rw [if_neg (by simp [hs])]
    cases hm : node.schema.features.map Prod.snd with
    | nil => rw [hm] at hl; simp at hl
    | cons d rest =>
      cases rest with
      | nil => exact ⟨d, rfl, rfl⟩
      | cons d2 r2 => rw [hm] at hl; simp at hl
  | inr v => exact ⟨DType.inferFromValue v, rfl, rfl⟩

/-- C8: constructing Where fails with DTypeConstraintError whenever the two
branches' resulting dtypes differ (no implicit coercion); when construction
succeeds the output has exactly one feature of the common dtype and shares
the input's sampling. -/
theorem where_branch_dtypes (input : Node) (featureName : String)
    (onTrue onFalse : Node ⊕ ScalarValue)
    (hin : input.schema.features = [(featureName, DType.BOOLEAN)])
    (ht : argWellFormed onTrue input) (hf : argWellFormed onFalse input) :
    (resultingDtype onTrue ≠ resultingDtype onFalse →
      Where.init input onTrue onFalse = Except.error TpError.dtypeConstraintError) ∧
    (∀ out, Where.init input onTrue onFalse = Except.ok out →
      ∃ d, resultingDtype onTrue = some d ∧ resultingDtype onFalse = some d ∧
        out.schema.features = [(featureName, d)] ∧
        out.samplingId = input.samplingId) := by
  obtain ⟨dt, hat, hrt⟩ := addArgument_ok_of_wellFormed onTrue input ht
  obtain ⟨df, haf, hrf⟩ := addArgument_ok_of_wellFormed onFalse input hf
  have hred : Where.init input onTrue onFalse =
      (if dt ≠ df then Except.error TpError.dtypeConstraintError
       else Except.ok { schema := { features := [(featureName, dt)],
                                    indexes := input.schema.indexes,
                                    is_unix_timestamp :=
                                      input.schema.is_unix_timestamp },
                        samplingId := input.samplingId }) := by
    unfold Where.init
    rw [hin, hat, haf]
  rcases eq_or_ne dt df with heq | hne
  · subst heq
    refine ⟨?_, ?_⟩
    · intro hnedt
      rw [hrt, hrf] at hnedt
      exact absurd rfl hnedt
    · intro out hout
      rw [hred, if_neg (by simp)] at hout
      have hrec := Except.ok.inj hout
      refine ⟨dt, hrt, hrf, ?_, ?_⟩ <;> rw [← hrec]
  · refine ⟨?_, ?_⟩
    · intro _
      rw [hred, if_pos hne]
    · intro out hout
      rw [hred, if_pos hne] at hout
      exact Except.noConfusion hout

/-- C8 witness: scalar branches with int vs float dtypes fail with the dtype
constraint error. -/
theorem where_branch_dtypes_witness :
    Where.init boolCondNode (Sum.inr (ScalarValue.int 1))
        (Sum.inr (ScalarValue.float 1)) =
      Except.error TpError.dtypeConstraintError :=
  (where_branch_dtypes boolCondNode "cond" (Sum.inr (ScalarValue.int 1))
      (Sum.inr (ScalarValue.float 1)) rfl trivial trivial).1 (by decide)

/-- C1: the numpy Where implementation does not compute the conditional
selection: the output keeps the input's index keys and maps every one of
them to an IndexData with an empty feature list and the fixed single-element
timestamp array [1.0], independently of the input's timestamps and values
and of the on_true/on_false arguments. -/
theorem where_numpy_placeholder (outputSchema : Schema)
    (onTrue onFalse onTrue2 onFalse2 : Option ScalarValue) (input : EventSet) :
    ((whereNumpyCall outputSchema onTrue onFalse input).data =
      input.data.map fun kv => (kv.1, { features := [], timestamps := [1] })) ∧
    ((whereNumpyCall outputSchema onTrue onFalse input).data.map Prod.fst =
      input.data.map Prod.fst) ∧
    (∀ kv ∈ (whereNumpyCall outputSchema onTrue onFalse input).data,
      kv.2.features = [] ∧ kv.2.timestamps = [1]) ∧
    whereNumpyCall outputSchema onTrue onFalse input =
      whereNumpyCall outputSchema onTrue2 onFalse2 input := by
  refine ⟨rfl, ?_, ?_, rfl⟩
  · show (input.data.map fun kv =>
        ((kv.1, { features := [], timestamps := [1] }) : IndexKey × IndexData)).map
          Prod.fst = input.data.map Prod.fst
    rw [List.map_map]
    rfl
  · intro kv hkv
    simp only [whereNumpyCall, List.mem_map] at hkv
    obtain ⟨a, -, rfl⟩ := hkv
    exact ⟨rfl, rfl⟩

/-- C1 witness: the placeholder output at a concrete input. -/
theorem where_numpy_placeholder_witness :
    (whereNumpyCall ⟨[("x", DType.INT64)], [], false⟩ none none
        sampleEventSet).data =
      sampleEventSet.data.map fun kv =>
        (kv.1, { features := [], timestamps := [1] }) :=
  (where_numpy_placeholder ⟨[("x", DType.INT64)], [], false⟩ none none none
    none sampleEventSet).1

theorem checkOverflowRaise_error_iff (data : List FValue) (o d : DType) :
    checkOverflowRaise data o d = Except.error TpError.overflowError ↔
      (o ≠ DType.BOOLEAN ∧ o ≠ DType.STRING ∧
       d ≠ DType.BOOLEAN ∧ d ≠ DType.STRING ∧
       dtypeMax d < dtypeMax o ∧
       ∃ q, FValue.num q ∈ data ∧
         (q < (dtypeMin d : Rat) ∨ (dtypeMax d : Rat) < q)) := by
  have hnc : ∀ x : DType,
      noCheckDtype x = false ↔ (x ≠ DType.BOOLEAN ∧ x ≠ DType.STRING) := by
    intro x; cases x <;> simp [noCheckDtype]
  unfold checkOverflowRaise
  split
  · rename_i hcond
    rw [Bool.and_eq_true] at hcond
    obtain ⟨hco, hany⟩ := hcond
    unfold canOverflow at hco
    by_cases hb : (noCheckDtype o || noCheckDtype d) = true
    · rw [if_pos hb] at hco
      exact absurd hco (by simp)
    · rw [if_neg hb] at hco
      have hbo : noCheckDtype o = false ∧ noCheckDtype d = false := by
        revert hb; cases noCheckDtype o <;> cases noCheckDtype d <;> simp
      have ho := (hnc o).mp hbo.1
      have hd := (hnc d).mp hbo.2
      refine iff_of_true rfl ?_
      refine ⟨ho.1, ho.2, hd.1, hd.2, of_decide_eq_true hco, ?_⟩
      obtain ⟨v, hv, hvr⟩ := List.any_eq_true.mp hany
      cases v with
      | num q =>
        refine ⟨q, hv, ?_⟩
        revert hvr
        simp [outOfRange]
      | str s => simp [outOfRange] at hvr
      | bool b => simp [outOfRange] at hvr
  · rename_i hcond
    refine iff_of_false (by simp) ?_
    rintro ⟨ho1, ho2, hd1, hd2, hmax, q, hq, hout⟩
    apply hcond
    rw [Bool.and_eq_true]
    constructor
    · unfold canOverflow
      have ho := (hnc o).mpr ⟨ho1, ho2⟩
      have hd := (hnc d).mpr ⟨hd1, hd2⟩
      rw [if_neg (by simp [ho, hd])]
      exact decide_eq_true hmax
    · refine List.any_eq_true.mpr ⟨FValue.num q, hq, ?_⟩
      simp only [outOfRange, Bool.or_eq_true, decide_eq_true_eq]
      exact hout

/-- C2: with overflow checking enabled, casting a feature raises the
overflow error iff neither dtype is BOOLEAN or STRING, the destination
dtype's representable max is smaller than the origin's, and some value of
the feature lies outside the destination's representable range; in
particular casting INT64 values [0, 2^40] to INT32 fails with checking
enabled and succeeds with checking disabled. -/
theorem cast_overflow_contract :
    (∀ (data : List FValue) (originDtype dstDtype : DType),
      checkOverflowRaise data originDtype dstDtype =
          Except.error TpError.overflowError ↔
        (originDtype ≠ DType.BOOLEAN ∧ originDtype ≠ DType.STRING ∧
         dstDtype ≠ DType.BOOLEAN ∧ dstDtype ≠ DType.STRING ∧
         dtypeMax dstDtype < dtypeMax originDtype ∧
         ∃ q, FValue.num q ∈ data ∧
           (q < (dtypeMin dstDtype : Rat) ∨ (dtypeMax dstDtype : Rat) < q))) ∧
    (∀ astype, castCall astype (fun _ => DType.INT32) true int64Event40 =
      Except.error TpError.overflowError) ∧
    (∀ astype,
      exceptIsOk (castCall astype (fun _ => DType.INT32) false int64Event40) =
        true) :=
  ⟨checkOverflowRaise_error_iff, fun _ => rfl, fun _ => rfl⟩

/-- C2 witness: the overflow failure at the concrete INT64 event. -/
theorem cast_overflow_contract_witness :
    castCall identityAstype (fun _ => DType.INT32) true int64Event40 =
      Except.error TpError.overflowError :=
  cast_overflow_contract.2.1 identityAstype

theorem castFeatures_forall2 (astype : DType → FValue → FValue) (check : Bool)
    (target : String → DType) :
    ∀ (fs fs2 : List NumpyFeature),
      castFeatures astype check target fs = Except.ok fs2 →
      List.Forall₂ (fun fIn fOut : NumpyFeature =>
        fIn.dtype = target fIn.name → fOut = fIn) fs fs2 := by
  intro fs
  induction fs with
  | nil =>
    intro fs2 h
    obtain rfl := Except.ok.inj h
    exact List.Forall₂.nil
  | cons f rest ih =>
    intro fs2 h
    unfold castFeatures at h
    cases hf : castFeatureResult astype check target f with
    | error e => rw [hf] at h; exact Except.noConfusion h
    | ok f2 =>
      rw [hf] at h
      cases hr : castFeatures astype check target rest with
      | error e => rw [hr] at h; exact Except.noConfusion h
      | ok rest2 =>
        rw [hr] at h
        obtain rfl := Except.ok.inj h
        refine List.Forall₂.cons ?_ (ih rest2 hr)
        intro hdt
        unfold castFeatureResult at hf
        rw [if_pos hdt] at hf
        exact (Except.ok.inj hf).symm

theorem castData_forall2 (astype : DType → FValue → FValue) (check : Bool)
    (target : String → DType) :
    ∀ (l l2 : List (IndexKey × List NumpyFeature)),
      castData astype check target l = Except.ok l2 →
      List.Forall₂ (fun kvIn kvOut : IndexKey × List NumpyFeature =>
        kvOut.1 = kvIn.1 ∧
        List.Forall₂ (fun fIn fOut : NumpyFeature =>
          fIn.dtype = target fIn.name → fOut = fIn) kvIn.2 kvOut.2) l l2 := by
  intro l
  induction l with
  | nil =>
    intro l2 h
    obtain rfl := Except.ok.inj h
    exact List.Forall₂.nil
  | cons kv rest ih =>
    obtain ⟨k, fs⟩ := kv
    intro l2 h
    unfold castData at h
    cases hf : castFeatures astype check target fs with
    | error e => rw [hf] at h; exact Except.noConfusion h
    | ok fs2 =>
      rw [hf] at h
      cases hr : castData astype check target rest with
      | error e => rw [hr] at h; exact Except.noConfusion h
      | ok rest2 =>
        rw [hr] at h
        obtain rfl := Except.ok.inj h
        exact List.Forall₂.cons
          ⟨rfl, castFeatures_forall2 astype check target fs fs2 hf⟩
          (ih rest2 hr)

/-- C9: a feature cast to its own dtype is passed through unchanged, and if
no feature of the event changes dtype the returned dataset is the input
itself (identity passthrough, modelled as the function returning the very
input term). -/
theorem cast_identity_passthrough (astype : DType → FValue → FValue)
    (target : String → DType) (check : Bool) (event : NumpyEvent) :
    ((∀ nd ∈ eventDtypes event, target nd.1 = nd.2) →
      castCall astype target check event = Except.ok event) ∧
    (∀ f : NumpyFeature, f.dtype = target f.name →
      castFeatureResult astype check target f = Except.ok f) ∧
    (∀ out, castCall astype target check event = Except.ok out →
      List.Forall₂ (fun kvIn kvOut : IndexKey × List NumpyFeature =>
        kvOut.1 = kvIn.1 ∧
        List.Forall₂ (fun fIn fOut : NumpyFeature =>
          fIn.dtype = target fIn.name → fOut = fIn) kvIn.2 kvOut.2)
        event.data out.data) := by
  refine ⟨?_, ?_, ?_⟩
  · intro hall
    have hcond : ((eventDtypes event).all fun nd =>
        decide (nd.2 = target nd.1)) = true := by
      rw [List.all_eq_true]
      intro nd hnd
      rw [decide_eq_true_eq]
      exact (hall nd hnd).symm
    unfold castCall
    rw [if_pos hcond]
  · intro f hdt
    unfold castFeatureResult
    rw [if_pos hdt]
  · intro out hout
    unfold castCall at hout
    by_cases hcond : ((eventDtypes event).all fun nd =>
        decide (nd.2 = target nd.1)) = true
    · rw [if_pos hcond] at hout
      obtain rfl := Except.ok.inj hout
      rw [List.forall₂_same]
      intro kv hkv
      exact ⟨rfl, List.forall₂_same.mpr fun f hf _ => rfl⟩
    · rw [if_neg hcond] at hout
      cases hd : castData astype check target event.data with
      | error e => rw [hd] at hout; exact Except.noConfusion hout
      | ok data2 =>
        rw [hd] at hout
        have hrec := Except.ok.inj hout
        rw [← hrec]
        exact castData_forall2 astype check target event.data data2 hd

/-- C9 witness: an event whose features all keep their dtype is returned
unchanged. -/
theorem cast_identity_passthrough_witness :
    castCall identityAstype int64TargetMap true int64Event40 =
      Except.ok int64Event40 :=
  (cast_identity_passthrough identityAstype int64TargetMap true
    int64Event40).1 (by decide)

theorem daysBeforeYear_succ (y : Nat) (hy : 1 ≤ y) :
    daysBeforeYear (y + 1) =
      daysBeforeYear y + 365 + (if isLeap y = true then 1 else 0) := by
  obtain ⟨z, rfl⟩ : ∃ z, y = z + 1 := ⟨y - 1, by omega⟩
  have hleap : isLeap (z + 1) = true ↔
      ((z + 1) % 4 = 0 ∧ (z + 1) % 100 ≠ 0 ∨ (z + 1) % 400 = 0) := by
    simp [isLeap]
  unfold daysBeforeYear
  simp only [Nat.add_sub_cancel]
  rw [Nat.succ_div, Nat.succ_div, Nat.succ_div]
  split_ifs <;> rw [hleap] at * <;> omega

set_option maxHeartbeats 1000000 in
theorem dayOfYear_bounds (y m d : Nat) (h : validDate y m d) :
    1 ≤ daysBeforeMonth y m + d ∧
      daysBeforeMonth y m + d ≤ 365 + (if isLeap y = true then 1 else 0) := by
  obtain ⟨-, -, hm1, hm2, hd1, hd2⟩ := h
  unfold daysInMonth at hd2
  unfold daysBeforeMonth
  interval_cases m <;> cases hl : isLeap y <;>
    simp [hl, daysBeforeMonthBase, daysInMonthBase] at hd2 ⊢ <;> omega

theorem isoweek1monday_bounds (y : Nat) :
    (ymd2ord y 1 1 : Int) - 3 ≤ isoweek1monday y ∧
      isoweek1monday y ≤ (ymd2ord y 1 1 : Int) + 3 := by
  unfold isoweek1monday
  split <;> omega

theorem isoweek1monday_mod (y : Nat) :
    ∃ k : Int, isoweek1monday y = 7 * k + 1 := by
  unfold isoweek1monday
  split
  · exact ⟨((ymd2ord y 1 1 : Int) + 6) / 7, by omega⟩
  · exact ⟨((ymd2ord y 1 1 : Int) + 6) / 7 - 1, by omega⟩

theorem ymd2ord_jan1 (y : Nat) : ymd2ord y 1 1 = daysBeforeYear y + 1 := rfl

set_option maxHeartbeats 1000000 in
theorem isoWeekInRange (y m d : Nat) (h : validDate y m d) :
    1 ≤ isocalendarWeek y m d ∧ isocalendarWeek y m d ≤ 53 := by
  have hy1 : 1 ≤ y := h.1
  have hb := dayOfYear_bounds y m d h
  have hA := isoweek1monday_bounds y
  have hB := isoweek1monday_bounds (y + 1)
  obtain ⟨kA, hkA⟩ := isoweek1monday_mod y
  obtain ⟨kB, hkB⟩ := isoweek1monday_mod (y + 1)
  have hsucc := daysBeforeYear_succ y hy1
  have hj0 := ymd2ord_jan1 y
  have hj1 := ymd2ord_jan1 (y + 1)
  have hordeq : ymd2ord y m d = daysBeforeYear y + daysBeforeMonth y m + d := rfl
  rcases Nat.lt_or_ge y 2 with hy2 | hy2
  · have hyeq : y = 1 := by omega
    subst hyeq
    have e0 : isoweek1monday 0 = 1 := by decide
    have e1 : isoweek1monday 1 = 1 := by decide
    have e2 : isoweek1monday 2 = 365 := by decide
    have l1 : (if isLeap 1 = true then (1 : Nat) else 0) = 0 := by decide
    rw [l1] at hb
    have db1 : daysBeforeYear 1 = 0 := by decide
    unfold isocalendarWeek
    rw [e1, e2, show (1 - 1 : Nat) = 0 from rfl, e0]
    split <;> rename_i h1
    · omega
    · split <;> rename_i h2
      · omega
      · omega
  · obtain ⟨z, rfl⟩ : ∃ z, y = z + 1 := ⟨y - 1, by omega⟩
    have hz1 : 1 ≤ z := by omega
    have hP := isoweek1monday_bounds z
    obtain ⟨kP, hkP⟩ := isoweek1monday_mod z
    have hsuccz := daysBeforeYear_succ z hz1
    have hjz := ymd2ord_jan1 z
    have hcL1 : (if isLeap (z + 1) = true then (1 : Nat) else 0) ≤ 1 := by
      split <;> omega
    have hcL0 : (if isLeap z = true then (1 : Nat) else 0) ≤ 1 := by
      split <;> omega
    set L1 := (if isLeap (z + 1) = true then (1 : Nat) else 0) with hL1def
    set L0 := (if isLeap z = true then (1 : Nat) else 0) with hL0def
    unfold isocalendarWeek
    rw [show (z + 1 - 1 : Nat) = z from rfl]
    split <;> rename_i h1
    · omega
    · split <;> rename_i h2
      · omega
      · omega

/-- C10: the numpy calendar_iso_week implementation maps every valid datetime
to its ISO calendar week number, an integer in [1, 53], and the public
calendar_iso_week function outputs a single-feature node with the same
sampling as its input. -/
theorem calendar_iso_week_contract (y m d : Nat) (sampling : Node)
    (h : validDate y m d) :
    (1 ≤ isocalendarWeek y m d ∧ isocalendarWeek y m d ≤ 53) ∧
    (calendar_iso_week sampling).schema.features.length = 1 ∧
    (calendar_iso_week sampling).samplingId = sampling.samplingId :=
  ⟨isoWeekInRange y m d h, rfl, rfl⟩

/-- C10 witness: the contract at a concrete date and node. -/
theorem calendar_iso_week_contract_witness :
    validDate 2026 10 12 ∧
    ((1 ≤ isocalendarWeek 2026 10 12 ∧ isocalendarWeek 2026 10 12 ≤ 53) ∧
     (calendar_iso_week sampleNodeA).schema.features.length = 1 ∧
     (calendar_iso_week sampleNodeA).samplingId = sampleNodeA.samplingId) :=
  ⟨by decide, calendar_iso_week_contract 2026 10 12 sampleNodeA (by decide)⟩
